import Mathlib

/-!
Verification of the parrot capture/replay backend's session-orchestration layer:
a shallow embedding of the action-log append discipline, the screenshot ring
buffers, the JSON-extraction helpers, the replay driver's step loop, the
session start/stop lifecycle, the producer-loop shutdown timing, and the
WebSocket fan-out ticks, each translated from the Python sources under
`backend/`, together with theorems settling the specification's claims.
-/

namespace Parrot

/-! ## Action-log appends (C1)

From `BrowserCapture._action_poll_loop` (browser_capture.py lines 255-259),
`BrowserCapture._on_navigate` (lines 266-277) and
`ScreenRecorder.add_detected_action` (screen_recorder.py lines 116-124).
Every producer appends with `action["action_index"] = len(log)` immediately
followed by `log.append(action)`; in the poll loop and the navigation callback
the two statements run with no `await` between them on the single asyncio
thread, and `add_detected_action` performs them under the per-session lock,
so each assign-then-append pair is atomic. -/

/-- One appended action record: the assigned `action_index` plus the producer
that appended it (`"poll"` for the DOM-event poll loop, `"navigate"` for the
navigation observer callback, `"detected"` for desktop capture's
`add_detected_action`) and an opaque payload. -/
structure CapAction where
  action_index : Nat
  producer : String
  payload : String
deriving DecidableEq, Repr

/-- The atomic assign-then-append step shared by all three producers:
`action["action_index"] = len(session.actions); session.actions.append(action)`. -/
def append_with_index (log : List CapAction) (producer payload : String) : List CapAction :=
  log ++ [⟨log.length, producer, payload⟩]

/-- A whole session's sequence of appends, from an empty log, each event tagged
with the producer that performed it. -/
def run_appends (events : List (String × String)) : List CapAction :=
  events.foldl (fun log e => append_with_index log e.1 e.2) []

/-! ## Screenshot ring buffers (C2, C4)

From `ScreenRecorder._screenshot_loop` (screen_recorder.py lines 172-188):
append under the lock, then `if len(session.screenshots) > 100:
session.screenshots = session.screenshots[-50:]`; and
`BrowserCapture._screenshot_loop` (browser_capture.py lines 225-242):
append, then `if len(session.screenshots) > 60:
session.screenshots = session.screenshots[-30:]`. -/

/-- One screenshot-loop iteration's buffer effect: append `x`, then the
overflow trim `if len(buf) > cap: buf = buf[-keep:]` (Python `l[-k:]` on a
list of length `n > k` is `drop (n - k)`). Desktop capture instantiates
`cap = 100, keep = 50`; browser capture `cap = 60, keep = 30`. -/
def append_and_trim (cap keep : Nat) (buf : List Nat) (x : Nat) : List Nat :=
  if (buf ++ [x]).length > cap then (buf ++ [x]).drop ((buf ++ [x]).length - keep)
  else buf ++ [x]

/-- A whole run of the screenshot loop from an empty buffer. -/
def screenshot_run (cap keep : Nat) (xs : List Nat) : List Nat :=
  xs.foldl (append_and_trim cap keep) []

/-! ## JSON values and a model of `json.loads` (C5, C10)

The extraction helpers end in `json.loads(text)`. We model Python's strict
`json.loads`: whitespace between tokens is exactly space, tab, `\n`, `\r`;
any other character between tokens (e.g. `\x07`) is a parse error; a raw
control character below `0x20` inside a string literal is a parse error
(strict mode default); trailing non-whitespace after the value is an
"Extra data" error. Numbers are kept as their source lexeme (the claims only
involve integer literals, so no numeric semantics are needed). -/

/-- A parsed JSON value; numbers carry their lexeme. -/
inductive JVal where
  | jnull : JVal
  | jbool (b : Bool) : JVal
  | jnum (lexeme : String) : JVal
  | jstr (s : String) : JVal
  | jarr (elems : List JVal) : JVal
  | jobj (fields : List (String × JVal)) : JVal

/-- The left-brace character, written by code point to keep brace characters
out of the source text. -/
def lbrace : Char := Char.ofNat 123

/-- The right-brace character. -/
def rbrace : Char := Char.ofNat 125

/-- JSON inter-token whitespace as accepted by Python's `json` module. -/
def isJsonWs (c : Char) : Bool :=
  c = ' ' || c = '\t' || c = '\n' || c = '\r'

/-- Skip inter-token whitespace. -/
def skipWs : List Char → List Char
  | [] => []
  | c :: cs => if isJsonWs c then skipWs cs else c :: cs

/-- Decimal digit test. -/
def isDigitCh (c : Char) : Bool := '0' ≤ c && c ≤ '9'

/-- Take a maximal run of digits. -/
def takeDigits : List Char → (List Char × List Char)
  | [] => ([], [])
  | c :: cs =>
    if isDigitCh c then
      let (ds, rest) := takeDigits cs
      (c :: ds, rest)
    else ([], c :: cs)

/-- Parse the integer part of a JSON number after an optional sign:
`0` alone or a nonzero digit followed by digits (no leading zeros). -/
def parseIntPart (cs : List Char) : Option (List Char × List Char) :=
  match cs with
  | [] => none
  | c :: rest =>
    if c = '0' then some ([c], rest)
    else if isDigitCh c then
      let (ds, r) := takeDigits rest
      some (c :: ds, r)
    else none

/-- Parse an optional fraction part `.digits`. -/
def parseFracPart (cs : List Char) : Option (List Char × List Char) :=
  match cs with
  | '.' :: rest =>
    match takeDigits rest with
    | ([], _) => none
    | (ds, r) => some ('.' :: ds, r)
  | _ => some ([], cs)

/-- Parse an optional exponent part `[eE][+-]?digits`. -/
def parseExpPart (cs : List Char) : Option (List Char × List Char) :=
  match cs with
  | c :: rest =>
    if c = 'e' || c = 'E' then
      let (sign, rest2) :=
        match rest with
        | s :: r2 => if s = '+' || s = '-' then ([s], r2) else ([], rest)
        | [] => ([], rest)
      match takeDigits rest2 with
      | ([], _) => none
      | (ds, r) => some (c :: (sign ++ ds), r)
    else some ([], c :: rest)
  | [] => some ([], [])

/-- Parse a JSON number starting at `cs`; returns its lexeme. -/
def parseNumber (cs : List Char) : Option (String × List Char) :=
  let (sign, cs1) :=
    match cs with
    | '-' :: r => (['-'], r)
    | _ => ([], cs)
  match parseIntPart cs1 with
  | none => none
  | some (ip, cs2) =>
    match parseFracPart cs2 with
    | none => none
    | some (fp, cs3) =>
      match parseExpPart cs3 with
      | none => none
      | some (ep, cs4) => some (String.mk (sign ++ ip ++ fp ++ ep), cs4)

/-- Hex digit value, by code point: digits 48-57, lowercase 97-102 (offset
87), uppercase 65-70 (offset 55). -/
def hexVal (c : Char) : Option Nat :=
  let n := c.toNat
  if 48 ≤ n && n ≤ 57 then some (n - 48)
  else if 97 ≤ n && n ≤ 102 then some (n - 87)
  else if 65 ≤ n && n ≤ 70 then some (n - 55)
  else none

/-- Parse the body of a JSON string after the opening quote; rejects raw
control characters (strict mode), decodes the standard escapes and a single
`\uXXXX` unit. -/
def parseStringBody : Nat → List Char → Option (List Char × List Char)
  | 0, _ => none
  | _, [] => none
  | fuel + 1, c :: cs =>
    if c = '"' then some ([], cs)
    else if c = '\\' then
      match cs with
      | [] => none
      | e :: cs2 =>
        let decoded : Option (Char × List Char) :=
          if e = '"' then some ('"', cs2)
          else if e = '\\' then some ('\\', cs2)
          else if e = '/' then some ('/', cs2)
          else if e = 'b' then some (Char.ofNat 8, cs2)
          else if e = 'f' then some (Char.ofNat 12, cs2)
          else if e = 'n' then some ('\n', cs2)
          else if e = 'r' then some ('\r', cs2)
          else if e = 't' then some ('\t', cs2)
          else if e = 'u' then
            match cs2 with
            | h1 :: h2 :: h3 :: h4 :: cs3 =>
              match hexVal h1, hexVal h2, hexVal h3, hexVal h4 with
              | some a, some b, some c3, some d =>
                some (Char.ofNat (((a * 16 + b) * 16 + c3) * 16 + d), cs3)
              | _, _, _, _ => none
            | _ => none
          else none
        match decoded with
        | none => none
        | some (ch, rest) =>
          match parseStringBody fuel rest with
          | none => none
          | some (tail, r) => some (ch :: tail, r)
    else if c.toNat < 32 then none
    else
      match parseStringBody fuel cs with
      | none => none
      | some (tail, r) => some (c :: tail, r)

mutual

/-- Parse one JSON value (whitespace already allowed before it). -/
def parseVal : Nat → List Char → Option (JVal × List Char)
  | 0, _ => none
  | fuel + 1, cs =>
    match skipWs cs with
    | [] => none
    | c :: rest =>
      if c = lbrace then
        match skipWs rest with
        | c2 :: r2 =>
          if c2 = rbrace then some (JVal.jobj [], r2)
          else
            match parseMembers fuel (c2 :: r2) with
            | none => none
            | some (fields, r3) =>
              match skipWs r3 with
              | c3 :: r4 => if c3 = rbrace then some (JVal.jobj fields, r4) else none
              | [] => none
        | [] => none
      else if c = '[' then
        match skipWs rest with
        | c2 :: r2 =>
          if c2 = ']' then some (JVal.jarr [], r2)
          else
            match parseElems fuel (c2 :: r2) with
            | none => none
            | some (elems, r3) =>
              match skipWs r3 with
              | c3 :: r4 => if c3 = ']' then some (JVal.jarr elems, r4) else none
              | [] => none
        | [] => none
      else if c = '"' then
        match parseStringBody (rest.length + 1) rest with
        | none => none
        | some (body, r) => some (JVal.jstr (String.mk body), r)
      else if c = 't' then
        match rest with
        | 'r' :: 'u' :: 'e' :: r => some (JVal.jbool true, r)
        | _ => none
      else if c = 'f' then
        match rest with
        | 'a' :: 'l' :: 's' :: 'e' :: r => some (JVal.jbool false, r)
        | _ => none
      else if c = 'n' then
        match rest with
        | 'u' :: 'l' :: 'l' :: r => some (JVal.jnull, r)
        | _ => none
      else
        match parseNumber (c :: rest) with
        | none => none
        | some (lex, r) => some (JVal.jnum lex, r)

/-- Parse one or more comma-separated `"key": value` members. -/
def parseMembers : Nat → List Char → Option (List (String × JVal) × List Char)
  | 0, _ => none
  | fuel + 1, cs =>
    match skipWs cs with
    | '"' :: rest =>
      match parseStringBody (rest.length + 1) rest with
      | none => none
      | some (key, r1) =>
        match skipWs r1 with
        | ':' :: r2 =>
          match parseVal fuel r2 with
          | none => none
          | some (v, r3) =>
            match skipWs r3 with
            | ',' :: r4 =>
              match parseMembers fuel r4 with
              | none => none
              | some (fields, r5) => some ((String.mk key, v) :: fields, r5)
            | r4 => some ([(String.mk key, v)], r4)
        | _ => none
    | _ => none

/-- Parse one or more comma-separated array elements. -/
def parseElems : Nat → List Char → Option (List JVal × List Char)
  | 0, _ => none
  | fuel + 1, cs =>
    match parseVal fuel cs with
    | none => none
    | some (v, r1) =>
      match skipWs r1 with
      | ',' :: r2 =>
        match parseElems fuel r2 with
        | none => none
        | some (elems, r3) => some (v :: elems, r3)
      | r2 => some ([v], r2)

end

/-- Model of Python `json.loads`: parse one value and require only whitespace
after it (otherwise the `Extra data` error); `none` models a raised
`json.JSONDecodeError`. -/
def loads (s : String) : Option JVal :=
  let cs := s.data
  match parseVal (2 * cs.length + 2) cs with
  | none => none
  | some (v, rest) =>
    match skipWs rest with
    | [] => some v
    | _ :: _ => none

/-! ## The JSON-extraction helpers (C5)

From `ObserverAgent._extract_json` (parrot_agents/observer_agent.py lines
144-159), `ActionDetector._extract_json` (capture/action_detector.py lines
222-231) and `SimulatorAgent._extract_json_array`
(parrot_agents/simulator_agent.py lines 343-359). -/

/-- Python `str.strip()` whitespace (the ASCII cases: space, tab, newline,
carriage return, vertical tab, form feed). -/
def isPyWs (c : Char) : Bool :=
  c = ' ' || c = '\t' || c = '\n' || c = '\r' || c = Char.ofNat 11 || c = Char.ofNat 12

/-- Python `text.strip()`. -/
def pyStrip (s : String) : String :=
  String.mk (((s.data.dropWhile isPyWs).reverse.dropWhile isPyWs).reverse)

/-- Character-list version of Python `str.startswith`. -/
def startsWithCh : List Char → List Char → Bool
  | _, [] => true
  | [], _ :: _ => false
  | c :: cs, p :: ps => c = p && startsWithCh cs ps

/-- Python `s.startswith(p)` (code-point based, like Python slicing). -/
def py_startswith (s p : String) : Bool := startsWithCh s.data p.data

/-- Python `s.endswith(p)`. -/
def py_endswith (s p : String) : Bool := startsWithCh s.data.reverse p.data.reverse

/-- Python `s[n:]`. -/
def py_drop (s : String) (n : Nat) : String := String.mk (s.data.drop n)

/-- Python `s[:-n]` (for `n ≤ len(s)`). -/
def py_dropRight (s : String) (n : Nat) : String :=
  String.mk (s.data.take (s.data.length - n))

/-- The fence-stripping shared by all three extractors:
`if text.startswith('```json'): text = text[7:]`, then (on the updated text)
`if text.startswith('```'): text = text[3:]`, then
`if text.endswith('```'): text = text[:-3]`. -/
def stripFences (s : String) : String :=
  let t1 := if py_startswith s "```json" then py_drop s 7 else s
  let t2 := if py_startswith t1 "```" then py_drop t1 3 else t1
  if py_endswith t2 "```" then py_dropRight t2 3 else t2

/-- The observer's control-character replacement,
`re.sub(r'[\x00-\x1f\x7f]', lambda m: ' ' if m.group() not in '\n\r\t' else m.group(), text)`:
every control character outside `\n`, `\r`, `\t` becomes a space. -/
def strip_ctrl (s : String) : String :=
  String.mk (s.data.map (fun c =>
    if (c.toNat ≤ 31 || c.toNat = 127) && !(c = '\n' || c = '\r' || c = '\t') then ' ' else c))

/-- Model of `ObserverAgent._extract_json`: strip, remove fences, replace control
characters, then `json.loads(text.strip())`; `none` models the raised
decode error. -/
def extract_json (text : String) : Option JVal :=
  let t := pyStrip text
  let t := stripFences t
  let t := strip_ctrl t
  loads (pyStrip t)

/-- Model of `ActionDetector._extract_json`: strip, remove fences, then
`json.loads(text.strip())` — no control-character handling. -/
def ad_extract_json (text : String) : Option JVal :=
  loads (pyStrip (stripFences (pyStrip text)))

/-- Model of `SimulatorAgent._extract_json_array`: strip, remove fences, strip, then
`json.loads`; a list result is returned as-is, a dict is wrapped in a
singleton list, any other value yields `[]`; no control-character handling,
and a decode error propagates (`none`). -/
def extract_json_array (text : String) : Option (List JVal) :=
  match loads (pyStrip (stripFences (pyStrip text))) with
  | none => none
  | some (JVal.jarr elems) => some elems
  | some (JVal.jobj fields) => some [JVal.jobj fields]
  | some _ => some []

/-! ## Replay driver (C3)

From `SimulatorAgent._simulation_loop` (parrot_agents/simulator_agent.py lines
126-205) and `SimulatorAgent._execute_action` (lines 277-332). The page is
abstracted by predicates saying which Playwright calls succeed; the Reasoning
Client is abstracted by the per-step planned action list (`_plan_actions`
already catches its own failures and falls back to `[{"type":"wait"}]`, so its
output is always a list). A step's unguarded preamble (`session.page.url`)
may raise; everything inside `_execute_action` is wrapped in its own
`try/except`. -/

/-- The closed vocabulary of replay actions (`_plan_actions` output). -/
inductive SimAction where
  | navigate (url : String)
  | click (selector : String)
  | typeText (selector text : String)
  | scroll (direction : String) (amount : Int)
  | wait (seconds : Nat)
  | screenshot
  | other (t : String)
deriving DecidableEq, Repr

/-- The `"type"` tag of an action as it appears in the action dict. -/
def actionTypeName : SimAction → String
  | .navigate _ => "navigate"
  | .click _ => "click"
  | .typeText _ _ => "type"
  | .scroll _ _ => "scroll"
  | .wait _ => "wait"
  | .screenshot => "screenshot"
  | .other t => t

/-- Which Playwright calls succeed against the current page: a CSS-selector
click, the text-content fallback click, `page.goto`, `page.fill`, the
role-textbox fallback fill, and `page.keyboard.type`. -/
structure PageEnv where
  cssClick : String → Bool
  textClick : String → Bool
  navOk : String → Bool
  fillOk : String → Bool
  roleFillOk : Bool
  keyboardOk : Bool

/-- The result dict of `_execute_action`: its `"status"` value and its
`"error"` value when present. -/
structure ExecResult where
  status : String
  error : Option String
deriving DecidableEq, Repr

/-- Translation of `SimulatorAgent._execute_action`: every branch is inside the method's own
`try/except`, so it always returns a result dict — a selector miss falls back
to a text click and then to a `failed` result; an exception anywhere else
yields a `status: "error"` result. -/
def execute_action (env : PageEnv) (a : SimAction) : ExecResult :=
  match a with
  | .navigate url =>
    if env.navOk url then ⟨"ok", none⟩ else ⟨"error", some "goto raised"⟩
  | .click selector =>
    if env.cssClick selector then ⟨"ok", none⟩
    else if env.textClick selector then ⟨"ok", none⟩
    else ⟨"failed", some ("Could not find: " ++ selector)⟩
  | .typeText selector _text =>
    if env.fillOk selector then ⟨"ok", none⟩
    else if env.roleFillOk then ⟨"ok", none⟩
    else if env.keyboardOk then ⟨"ok", none⟩
    else ⟨"error", some "keyboard raised"⟩
  | .scroll _ _ => ⟨"ok", none⟩
  | .wait _ => ⟨"ok", none⟩
  | .screenshot => ⟨"ok", none⟩
  | .other t => ⟨"skipped", some ("Unknown action type: " ++ t)⟩

/-- One workflow step as the loop sees it: its name, the action plan returned
by `_plan_actions`, and whether the step body's unguarded preamble raises
(carrying the exception message). -/
structure WStep where
  step_name : String
  planned : List SimAction
  raises : Option String
deriving Repr

/-- One entry of `session.action_log`: the 1-based step number, the step name,
the `"type"` of the recorded action dict (`"error"` on the exception path),
and the result dict's `"status"`/`"error"` fields (the exception path's result
dict has no `"status"` key, only `"error"`). -/
structure LogEntry where
  step_number : Nat
  step_name : String
  action_type : String
  result_status : Option String
  result_error : Option String
deriving DecidableEq, Repr

/-- The log entries contributed by step `i` (0-based): on the exception path,
the single `error` entry from lines 196-202; otherwise one entry per planned
action, recording `_execute_action`'s result (lines 152-177). -/
def step_entries (env : PageEnv) (i : Nat) (s : WStep) : List LogEntry :=
  match s.raises with
  | some msg => [⟨i + 1, s.step_name, "error", none, some msg⟩]
  | none =>
    s.planned.map (fun a =>
      let r := execute_action env a
      ⟨i + 1, s.step_name, actionTypeName a, some r.status, r.error⟩)

/-- The final state of a replay run: terminal status and the action log. -/
structure SimFinal where
  status : String
  action_log : List LogEntry
deriving Repr

/-- Translation of `_simulation_loop` without an external stop request: every step is
processed in order — a step that raises is caught, logged and the loop
advances — and the status is set to `"completed"` after the loop. -/
def simulation_loop (env : PageEnv) (steps : List WStep) : SimFinal :=
  let log := (steps.enum.foldl (fun acc p => acc ++ step_entries env p.1 p.2) [])
  ⟨"completed", log⟩

/-! ## Session start: resource-acquisition failure (C6)

From `BrowserCapture.start_session` (browser_capture.py lines 129-182) and
`SimulatorAgent.start_simulation` (simulator_agent.py lines 55-104). Both
register the session in `self._sessions` first, then launch the browser inside
`try`; on an exception they set a terminal status on that session — `"stopped"`
in `BrowserCapture`, `"failed"` in `SimulatorAgent` — and re-`raise`, leaving
every other registry entry untouched. The registry is an association list
`session_id ↦ status`. -/

/-- Overwrite the status of session `sid` in the registry. -/
def set_status (reg : List (String × String)) (sid status : String) :
    List (String × String) :=
  reg.map (fun p => if p.1 = sid then (sid, status) else p)

/-- Model of `BrowserCapture.start_session` restricted to its registry/status effect:
register `sid` as `"starting"`, then either launch succeeds (status
`"recording"`, session returned) or the launch raises (status `"stopped"`,
exception re-raised to the caller). -/
def browser_start_session (reg : List (String × String)) (sid : String)
    (launch_ok : Bool) : List (String × String) × Except String String :=
  let reg1 := reg ++ [(sid, "starting")]
  if launch_ok then (set_status reg1 sid "recording", Except.ok sid)
  else (set_status reg1 sid "stopped", Except.error "Browser launch failed")

/-- Model of `SimulatorAgent.start_simulation` restricted to its registry/status
effect: register `sid` as `"starting"`, then either the launch succeeds
(status `"running"`) or it raises (status `"failed"`, exception re-raised). -/
def simulator_start_simulation (reg : List (String × String)) (sid : String)
    (launch_ok : Bool) : List (String × String) × Except String String :=
  let reg1 := reg ++ [(sid, "starting")]
  if launch_ok then (set_status reg1 sid "running", Except.ok sid)
  else (set_status reg1 sid "failed", Except.error "Failed to start simulation")

/-! ## Session stop (C7)

From `BrowserCapture.stop_session` (browser_capture.py lines 184-205) and
`ScreenRecorder.stop_session` (screen_recorder.py lines 97-111). -/

/-- The per-session state `stop_session` touches. -/
structure StopView where
  status : String
  stopped_at : Option Nat
deriving DecidableEq, Repr

/-- Model of `session.browser.close()` / `playwright.stop()`: may raise. -/
def close_browser (close_raises : Bool) : Except String Unit :=
  if close_raises then Except.error "Browser close error" else Except.ok ()

/-- Association-list lookup of a session. -/
def find_session (reg : List (String × StopView)) (sid : String) : Option StopView :=
  match reg.find? (fun p => p.1 = sid) with
  | some p => some p.2
  | none => none

/-- Overwrite a session's state in the registry. -/
def update_session (reg : List (String × StopView)) (sid : String) (v : StopView) :
    List (String × StopView) :=
  reg.map (fun p => if p.1 = sid then (sid, v) else p)

/-- Model of `BrowserCapture.stop_session`: unknown id returns `None`; otherwise set
status `"stopped"`, record `stopped_at`, attempt the browser close inside
`try/except` (a close error is logged and swallowed), and return the session.
`ScreenRecorder.stop_session` is the same minus the close attempt. -/
def stop_session (reg : List (String × StopView)) (sid : String) (now : Nat)
    (close_raises : Bool) : List (String × StopView) × Option StopView :=
  match find_session reg sid with
  | none => (reg, none)
  | some _ =>
    let v : StopView := ⟨"stopped", some now⟩
    let _swallowed : Unit :=
      match close_browser close_raises with
      | Except.ok u => u
      | Except.error _ => ()
    (update_session reg sid v, some v)

/-! ## Producer-loop shutdown timing (C8)

From `ScreenRecorder._screenshot_loop` (screen_recorder.py lines 166-188),
`BrowserCapture._screenshot_loop` (browser_capture.py lines 223-242) and
`BrowserCapture._action_poll_loop` (lines 244-264): each has the shape
`while session.status == "recording": <body with one append>; sleep(P)`.
Timing model: iteration `k` performs its loop-top status check at time `k*P`
and its append strictly before the next check, at `k*P + d` with `d < P`;
`stop` flips the status at time `stopTime`, so a check at time `t` sees
`"recording"` iff `t < stopTime`. The loop returns at the first failed check,
so the iterations that run are the longest prefix of passing checks. -/

/-- The status the loop-top check observes at time `t`. -/
def status_at (stopTime t : Nat) : String :=
  if t < stopTime then "recording" else "stopped"

/-- The append times of a producer loop run for up to `n` iterations with
polling interval `P`, stop at `stopTime`, and per-iteration append offset
`delay k < P`: iterations run while the check at `k*P` still sees
`"recording"` and each appends at `k*P + delay k`. -/
def loop_append_times (stopTime P : Nat) (delay : Nat → Nat) (n : Nat) : List Nat :=
  ((List.range n).takeWhile (fun k => status_at stopTime (k * P) = "recording")).map
    (fun k => k * P + delay k)

/-! ## Streaming fan-out tick (C9)

From `browser_capture_ws` (main.py lines 1016-1045); `simulate_websocket`
(lines 841-879) has the same cursor discipline. One iteration of the
`while` body: flush all actions past the action cursor in log order and
advance it to `len`; if the screenshot count grew, send only the newest
screenshot and advance that cursor to `len`; then a status heartbeat. -/

/-- Outbound messages of one tick. -/
inductive WsMsg where
  | action (a : String)
  | screenshot (img : String)
  | status (actionCount : Nat) (url : String)
deriving DecidableEq, Repr

/-- The per-subscriber cursor pair, initialized to `(0, 0)` on connect. -/
structure Cursors where
  last_action_count : Nat
  last_screenshot_count : Nat
deriving DecidableEq, Repr

/-- One fan-out tick: the messages sent and the updated cursors. -/
def ws_tick (actions screenshots : List String) (url : String) (c : Cursors) :
    List WsMsg × Cursors :=
  let actionMsgs :=
    if actions.length > c.last_action_count then
      (actions.drop c.last_action_count).map WsMsg.action
    else []
  let la :=
    if actions.length > c.last_action_count then actions.length
    else c.last_action_count
  let ssMsgs :=
    if screenshots.length > c.last_screenshot_count then
      match screenshots.getLast? with
      | some latest => [WsMsg.screenshot latest]
      | none => []
    else []
  let ls :=
    if screenshots.length > c.last_screenshot_count then screenshots.length
    else c.last_screenshot_count
  (actionMsgs ++ ssMsgs ++ [WsMsg.status actions.length url], ⟨la, ls⟩)

/-! ## Producer trim composed with a subscriber (C4)

The browser-capture screenshot producer (`append_and_trim 60 30`, from
browser_capture.py lines 229-237) interleaved with the screenshot half of the
`browser_capture_ws` tick (main.py lines 1029-1036). Screenshots are numbered
by id; `delivered` records what the subscriber received, in order. -/

/-- Shared state of the session buffer and one subscriber. -/
structure StreamState where
  buf : List Nat
  cursor : Nat
  delivered : List Nat
deriving DecidableEq, Repr

/-- An interleaving event: one producer iteration or one subscriber tick. -/
inductive SEvent where
  | produce (id : Nat)
  | tick
deriving DecidableEq, Repr

/-- One event's effect: `produce` appends and applies the browser-capture
trim; `tick` runs the screenshot half of the WebSocket body — if
`len(screenshots) > last_screenshot_count`, send the newest and set the
cursor to the length; the cursor is never otherwise adjusted (no clamping
anywhere in `main.py`). -/
def stream_step (s : StreamState) : SEvent → StreamState
  | SEvent.produce id => ⟨append_and_trim 60 30 s.buf id, s.cursor, s.delivered⟩
  | SEvent.tick =>
    if s.buf.length > s.cursor then
      match s.buf.getLast? with
      | some latest => ⟨s.buf, s.buf.length, s.delivered ++ [latest]⟩
      | none => s
    else s

/-- Run an interleaving from the initial state (empty buffer, fresh cursor). -/
def stream_run (events : List SEvent) : StreamState :=
  events.foldl stream_step ⟨[], 0, []⟩

/-! ## Action detection (C10)

From `ActionDetector.analyze_frame` (capture/action_detector.py lines 39-143)
and `ActionDetector._summarize_events` (lines 192-220). Events are Python
dicts, modelled as association lists; `d[k]` raises `KeyError` when missing,
`d.get(k, default)` does not. The Bedrock call (and reading its body) is the
`oracle` argument: `Except.error` models a raised exception, `Except.ok` the
response text. `time.time()` is the `now` argument. -/

/-- A Python dict with string keys and values. -/
abbrev PyDict := List (String × String)

/-- Python `d[k]`: raises `KeyError` when the key is missing. -/
def dget (d : PyDict) (k : String) : Except String String :=
  match d.find? (fun p => p.1 = k) with
  | some p => Except.ok p.2
  | none => Except.error ("KeyError: " ++ k)

/-- Python `d.get(k, default)`. -/
def dgetD (d : PyDict) (k dflt : String) : String :=
  match d.find? (fun p => p.1 = k) with
  | some p => p.2
  | none => dflt

/-- Translation of `ActionDetector._summarize_events`, line by line: the `clicks` and
`keystrokes` comprehensions subscript `e["type"]` (raising on a malformed
event), the click lines subscript `c['x']`/`c['y']`, while the keystroke
lines use the guarded `k.get("key", "")`. -/
def summarize_events (events : List PyDict) : Except String String := do
  if events.isEmpty then
    return "No input events detected"
  let types ← events.mapM (fun e => dget e "type")
  let tagged := events.zip types
  let clicks := (tagged.filter (fun p => p.2 = "click")).map Prod.fst
  let keystrokes := (tagged.filter (fun p => p.2 = "keystroke")).map Prod.fst
  let clickParts ←
    if clicks.isEmpty then pure []
    else
      (clicks.drop (clicks.length - 5)).mapM (fun c => do
        let x ← dget c "x"
        let y ← dget c "y"
        pure ("- Click at (" ++ x ++ ", " ++ y ++ ") [" ++ dgetD c "button" "left" ++ "]"))
  let keyParts :=
    if keystrokes.isEmpty then []
    else
      let typed := String.join (keystrokes.filterMap (fun k =>
        let s := dgetD k "key" ""
        if s.length = 1 then some s else none))
      let special := keystrokes.filterMap (fun k =>
        let s := dgetD k "key" ""
        if s.length > 1 then some s else none)
      (if typed ≠ "" then ["- Typed: \"" ++ typed ++ "\""] else []) ++
      (if !special.isEmpty then
        ["- Special keys: " ++ String.intercalate ", " (special.drop (special.length - 5))]
       else [])
  let parts := clickParts ++ keyParts
  if parts.isEmpty then
    return "Minor activity (no significant events)"
  return String.intercalate "\n" parts

/-- Python dict assignment `d[k] = v`: overwrite in place or append. -/
def dict_set (d : List (String × JVal)) (k : String) (v : JVal) :
    List (String × JVal) :=
  if d.any (fun p => p.1 = k) then d.map (fun p => if p.1 = k then (k, v) else p)
  else d ++ [(k, v)]

/-- Key lookup in a returned action dict. -/
def jget (d : List (String × JVal)) (k : String) : Option JVal :=
  match d.find? (fun p => p.1 = k) with
  | some p => some p.2
  | none => none

/-- The fallback action dict built in the `except` branch
(action_detector.py lines 134-143). -/
def fallback_action (e : String) (now : Nat) : List (String × JVal) :=
  [("action_type", JVal.jstr "unknown"),
   ("target", JVal.jstr ""),
   ("value", JVal.jstr ""),
   ("application", JVal.jstr ""),
   ("description", JVal.jstr ("Detection failed: " ++ e)),
   ("intent", JVal.jstr ""),
   ("timestamp", JVal.jnum (toString now)),
   ("error", JVal.jstr e)]

/-- Dispatch on the extraction result inside the `try` block: a JSON dict is
the success value; a non-dict value (which would make
`action["timestamp"] = ...` raise `TypeError`) or a decode failure is a raised
error. -/
def ext_step : Option JVal → Except String (List (String × JVal))
  | some (JVal.jobj fields) => Except.ok fields
  | some _ => Except.error "TypeError: not a dict"
  | none => Except.error "JSONDecodeError"

/-- The `try` block of `analyze_frame`: invoke the model (`oracle`) and
extract a JSON dict from its response text; any raised error — a model-call
failure, a decode error, or a non-dict extraction result — is the
`Except.error` the `except` branch will catch. -/
def attempt_extract : Except String String → Except String (List (String × JVal))
  | Except.error err => Except.error err
  | Except.ok text => ext_step (ad_extract_json text)

/-- Model of `ActionDetector.analyze_frame`: `_summarize_events` runs at line 57,
before (outside) the `try` block, so its `KeyError` propagates to the caller;
inside the `try`, every failure of `attempt_extract` falls to the `except`
branch, which returns the fallback dict; on success the timestamp and event
count are stamped onto the extracted dict. -/
def analyze_frame (now : Nat) (oracle : Except String String)
    (events : List PyDict) (_context : String) :
    Except String (List (String × JVal)) :=
  match summarize_events events with
  | Except.error err => Except.error err
  | Except.ok _event_summary =>
    match attempt_extract oracle with
    | Except.ok fields =>
      Except.ok (dict_set (dict_set fields "timestamp" (JVal.jnum (toString now)))
        "event_count" (JVal.jnum (toString events.length)))
    | Except.error e => Except.ok (fallback_action e now)

/-! ## Concrete test fixtures -/

/-- A page on which step 1's navigation and step 3's wait succeed while the
selector `#missing` matches neither a CSS selector nor any text content. -/
def replay_env : PageEnv :=
  ⟨fun s => s ≠ "#missing", fun _ => false, fun _ => true, fun _ => true, true, true⟩

/-- The claim's 3-step workflow: step 2's planned click can match nothing. -/
def replay_steps : List WStep :=
  [⟨"Open dashboard", [SimAction.navigate "https://example.com"], none⟩,
   ⟨"Click the missing button", [SimAction.click "#missing"], none⟩,
   ⟨"Wait for page", [SimAction.wait 2], none⟩]

/-- An interleaving that exercises the browser-capture trim under a live
subscriber: 60 screenshots arrive, the subscriber ticks (cursor reaches 60),
the 61st screenshot triggers the trim to 30, and then 60 more screenshots
arrive with a subscriber tick after each one. -/
def starve_trace : List SEvent :=
  ((List.range 60).map (fun k => SEvent.produce (k + 1))) ++ [SEvent.tick] ++
    ((List.range 60).foldr (fun k acc => SEvent.produce (61 + k) :: SEvent.tick :: acc) [])

/-! ## Helper lemmas -/

theorem append_with_index_map (log : List CapAction) (producer payload : String)
    (h : log.map (fun a => a.action_index) = List.range log.length) :
    (append_with_index log producer payload).map (fun a => a.action_index) =
      List.range (log.length + 1) := by
  simp [append_with_index, List.range_succ, h]

theorem run_appends_foldl_invariant (events : List (String × String))
    (log : List CapAction)
    (h : log.map (fun a => a.action_index) = List.range log.length) :
    (events.foldl (fun l e => append_with_index l e.1 e.2) log).map
        (fun a => a.action_index) =
      List.range (log.length + events.length) ∧
    (events.foldl (fun l e => append_with_index l e.1 e.2) log).length =
      log.length + events.length := by
  induction events generalizing log with
  | nil => simpa using h
  | cons e es ih =>
    have hstep := append_with_index_map log e.1 e.2 h
    have hlen : (append_with_index log e.1 e.2).length = log.length + 1 := by
      simp [append_with_index]
    have := ih (append_with_index log e.1 e.2) (by rw [hstep, hlen])
    rw [hlen] at this
    constructor
    · rw [List.foldl_cons, this.1]
      congr 1
      simp [List.length_cons]
      omega
    · rw [List.foldl_cons, this.2]
      simp [List.length_cons]
      omega

theorem append_and_trim_length_le (cap keep : Nat) (hk : keep ≤ cap)
    (buf : List Nat) (x : Nat) : (append_and_trim cap keep buf x).length ≤ cap := by
  unfold append_and_trim
  by_cases hb : (buf ++ [x]).length > cap
  · rw [if_pos hb, List.length_drop]
    omega
  · rw [if_neg hb]
    omega

theorem screenshot_run_length_le (cap keep : Nat) (hk : keep ≤ cap)
    (xs : List Nat) : (screenshot_run cap keep xs).length ≤ cap := by
  unfold screenshot_run
  have general : ∀ (ys : List Nat) (buf : List Nat), buf.length ≤ cap →
      (ys.foldl (append_and_trim cap keep) buf).length ≤ cap := by
    intro ys
    induction ys with
    | nil => intro buf hbuf; simpa using hbuf
    | cons y ys ih =>
      intro buf _
      rw [List.foldl_cons]
      exact ih _ (append_and_trim_length_le cap keep hk buf y)
  exact general xs [] (by simp)

theorem foldl_append_eq_flatten {α β : Type} (f : α → List β) (l : List α) :
    l.foldl (fun acc x => acc ++ f x) [] = (l.map f).flatten := by
  have general : ∀ (l : List α) (init : List β),
      l.foldl (fun acc x => acc ++ f x) init = init ++ (l.map f).flatten := by
    intro l
    induction l with
    | nil => intro init; simp
    | cons a t ih => intro init; simp [ih]
  simpa using general l []

/-! ## Claim theorems -/

/-- C1: every producer (the DOM-event poll loop, the navigation observer
callback, and desktop capture's locked `add_detected_action`) appends with
`action_index = len(log)`, so after any sequence of appends the action-log
indices are exactly the contiguous sequence `0..n-1`, with no gap and no
duplicate. -/
theorem action_log_indices_contiguous (events : List (String × String)) :
    (run_appends events).map (fun a => a.action_index) = List.range events.length ∧
    (run_appends events).length = events.length := by
  have := run_appends_foldl_invariant events [] (by simp)
  simpa [run_appends] using this

/-- C2: after every screenshot append-and-trim step the buffer length is at
most the capacity (100 for desktop capture, 60 for browser capture); at
exactly full capacity the next append triggers a batched trim that drops the
oldest 51 (resp. 31) entries in one step, keeping the newest 50 (resp. 30) in
their original order, and below capacity the append evicts nothing. -/
theorem screenshot_buffer_bounded_batch_trim :
    (∀ xs : List Nat, (screenshot_run 100 50 xs).length ≤ 100) ∧
    (∀ xs : List Nat, (screenshot_run 60 30 xs).length ≤ 60) ∧
    (∀ (buf : List Nat) (x : Nat), buf.length = 100 →
        append_and_trim 100 50 buf x = (buf ++ [x]).drop 51 ∧
        (append_and_trim 100 50 buf x).length = 50) ∧
    (∀ (buf : List Nat) (x : Nat), buf.length = 60 →
        append_and_trim 60 30 buf x = (buf ++ [x]).drop 31 ∧
        (append_and_trim 60 30 buf x).length = 30) ∧
    (∀ (buf : List Nat) (x : Nat), buf.length < 100 →
        append_and_trim 100 50 buf x = buf ++ [x]) ∧
    (∀ (buf : List Nat) (x : Nat), buf.length < 60 →
        append_and_trim 60 30 buf x = buf ++ [x]) := by
  refine ⟨fun xs => screenshot_run_length_le 100 50 (by omega) xs,
    fun xs => screenshot_run_length_le 60 30 (by omega) xs, ?_, ?_, ?_, ?_⟩
  · intro buf x h
    have hlen : (buf ++ [x]).length = 101 := by simp [h]
    constructor
    · simp [append_and_trim, hlen]
    · simp [append_and_trim, hlen]
  · intro buf x h
    have hlen : (buf ++ [x]).length = 61 := by simp [h]
    constructor
    · simp [append_and_trim, hlen]
    · simp [append_and_trim, hlen]
  · intro buf x h
    have hc : ¬((buf ++ [x]).length > 100) := by simp; omega
    simp [append_and_trim, hc]
    exact fun hcon => absurd hcon (by omega)
  · intro buf x h
    have hc : ¬((buf ++ [x]).length > 60) := by simp; omega
    simp [append_and_trim, hc]
    exact fun hcon => absurd hcon (by omega)

/-- C2 witness: a buffer at capacity 100 is trimmed to the newest 50 by the
101st append, and a buffer below capacity is only appended to. -/
theorem screenshot_buffer_bounded_batch_trim_witness :
    append_and_trim 100 50 (List.range 100) 100 = (List.range 100 ++ [100]).drop 51 ∧
    append_and_trim 60 30 (List.range 10) 10 = List.range 10 ++ [10] :=
  ⟨(screenshot_buffer_bounded_batch_trim.2.2.1 (List.range 100) 100 (by simp)).1,
   screenshot_buffer_bounded_batch_trim.2.2.2.2.2 (List.range 10) 10 (by simp)⟩

/-- C3 counterexample: in the 3-step workflow whose step-2 click matches
neither a CSS selector nor any text content, the run produces log entries for
all three steps and completes, but the click failure is absorbed inside
`_execute_action`: step 2's entry is an ordinary `click` entry whose result is
`{"status": "failed", "error": ...}`, not a log entry of type `error` — the
claim's "step 2 is marked as an error entry" is false on the code. -/
theorem replay_failed_click_not_error_entry :
    (simulation_loop replay_env replay_steps).status = "completed" ∧
    (simulation_loop replay_env replay_steps).action_log =
      [⟨1, "Open dashboard", "navigate", some "ok", none⟩,
       ⟨2, "Click the missing button", "click", some "failed",
        some "Could not find: #missing"⟩,
       ⟨3, "Wait for page", "wait", some "ok", none⟩] :=
  ⟨rfl, rfl⟩

/-- C3 amended: an exception raised in a step's body is caught and recorded
as a log entry of type `error` carrying that step's number, and the driver
advances — every step contributes its entries regardless of earlier failures
and the final status is always `completed`; but a click that matches neither a
CSS selector nor a text fallback does not raise: it is recorded as that step's
ordinary entry with result status `failed`, so in the 3-step scenario steps
1, 2 and 3 all get log entries, step 2's entry carries the failed result, and
the run completes. -/
theorem replay_partial_failure_never_halts :
    (∀ (env : PageEnv) (steps : List WStep),
        (simulation_loop env steps).status = "completed") ∧
    (∀ (env : PageEnv) (steps : List WStep),
        (simulation_loop env steps).action_log =
          (steps.enum.map (fun p => step_entries env p.1 p.2)).flatten) ∧
    (∀ (env : PageEnv) (i : Nat) (name : String) (planned : List SimAction)
        (msg : String),
        step_entries env i ⟨name, planned, some msg⟩ =
          [⟨i + 1, name, "error", none, some msg⟩]) ∧
    ((simulation_loop replay_env replay_steps).action_log.map
        (fun e => (e.step_number, e.result_status)) =
      [(1, some "ok"), (2, some "failed"), (3, some "ok")]) := by
  refine ⟨fun env steps => rfl, fun env steps => ?_, fun env i name planned msg => rfl, rfl⟩
  exact foldl_append_eq_flatten (fun p => step_entries env p.1 p.2) steps.enum

set_option maxRecDepth 8000 in
/-- C4 (code bug): the trim never clamps the subscriber cursor. In the
`starve_trace` interleaving the subscriber's cursor reaches 60 just before
the 61st screenshot triggers the trim to 30; from then on every tick sees
`len(screenshots) ≤ 60 = cursor`, so the 60 screenshots appended after the
trim (ids 61-120) are all skipped — the subscriber never receives another
screenshot (delivered stays `[60]`), the stale cursor (60) exceeds the buffer
length (58), and e.g. screenshot 120 sits in the buffer undelivered. The
spec's required clamp-on-trim does not exist in `main.py`. -/
theorem trim_without_clamp_skips_new_screenshots :
    (stream_run starve_trace).delivered = [60] ∧
    (stream_run starve_trace).cursor = 60 ∧
    (stream_run starve_trace).buf.length = 58 ∧
    (stream_run starve_trace).buf.length < (stream_run starve_trace).cursor ∧
    120 ∈ (stream_run starve_trace).buf ∧
    120 ∉ (stream_run starve_trace).delivered := by
  refine ⟨rfl, rfl, rfl, by decide, by decide, by decide⟩

/-- C6 counterexample: when the browser launch raises during
`BrowserCapture.start_session`, the session's terminal status is `"stopped"`
(browser_capture.py line 180), not the claimed `"failed"`. -/
theorem browser_launch_failure_status_stopped :
    browser_start_session [] "s1" false =
      ([("s1", "stopped")], Except.error "Browser launch failed") ∧
    "stopped" ≠ "failed" :=
  ⟨rfl, by decide⟩

/-- C6 amended: a resource-acquisition failure at session start leaves the
session in a terminal status — `"failed"` for the replay simulator but
`"stopped"` for browser capture — re-raises the error to the caller at start
time, and touches no other registry entry; on success the statuses are
`"running"` resp. `"recording"`. -/
theorem start_failure_fatal_to_session_only :
    ∀ (reg : List (String × String)) (sid : String),
      sid ∉ reg.map Prod.fst →
        browser_start_session reg sid false =
          (reg ++ [(sid, "stopped")], Except.error "Browser launch failed") ∧
        simulator_start_simulation reg sid false =
          (reg ++ [(sid, "failed")], Except.error "Failed to start simulation") ∧
        browser_start_session reg sid true =
          (reg ++ [(sid, "recording")], Except.ok sid) ∧
        simulator_start_simulation reg sid true =
          (reg ++ [(sid, "running")], Except.ok sid) := by
  have set_status_fresh : ∀ (reg : List (String × String)) (sid v s0 : String),
      sid ∉ reg.map Prod.fst →
      set_status (reg ++ [(sid, s0)]) sid v = reg ++ [(sid, v)] := by
    intro reg sid v s0 hfresh
    induction reg with
    | nil => simp [set_status]
    | cons a t ih =>
      simp only [List.map_cons, List.mem_cons] at hfresh
      push_neg at hfresh
      have ha : ¬(a.1 = sid) := fun h => hfresh.1 h.symm
      have htail := ih hfresh.2
      rw [set_status] at htail
      simp only [List.cons_append, set_status, List.map_cons, if_neg ha]
      rw [htail]
  intro reg sid hfresh
  refine ⟨?_, ?_, ?_, ?_⟩ <;>
    simp only [browser_start_session, simulator_start_simulation, if_true, if_false,
      Bool.false_eq_true, set_status_fresh reg sid _ _ hfresh]

/-- C6 witness: starting against a registry holding one other session, the
failing launch yields the per-component terminal statuses and re-raised
errors, leaving the other session untouched. -/
theorem start_failure_fatal_witness :
    simulator_start_simulation [("other", "running")] "s1" false =
      ([("other", "running"), ("s1", "failed")],
        Except.error "Failed to start simulation") ∧
    browser_start_session [("other", "recording")] "s1" false =
      ([("other", "recording"), ("s1", "stopped")],
        Except.error "Browser launch failed") :=
  ⟨(start_failure_fatal_to_session_only [("other", "running")] "s1" (by decide)).2.1,
   (start_failure_fatal_to_session_only [("other", "recording")] "s1" (by decide)).1⟩

theorem find_update_session (reg : List (String × StopView)) (sid : String)
    (w v : StopView) (h : find_session reg sid = some w) :
    find_session (update_session reg sid v) sid = some v := by
  induction reg with
  | nil => simp [find_session, List.find?] at h
  | cons a t ih =>
    by_cases ha : a.1 = sid
    · simp [find_session, update_session, List.find?, ha]
    · simp only [find_session, update_session, List.map_cons, if_neg ha,
        List.find?] at h ⊢
      rw [show (decide (a.1 = sid)) = false from decide_eq_false ha] at h ⊢
      simp only [Bool.false_eq_true, if_false] at h ⊢
      have := ih (by simpa [find_session] using h)
      simpa [find_session, update_session] using this

/-- C7: stopping an unknown session id returns `None` without touching the
registry; stopping a known session sets its status to the terminal
`"stopped"`, records the stop timestamp, and returns the session, with a
browser-close error swallowed (identical outcome whether or not the close
raises); and a second stop finds the already-terminal session and again
returns it without error. -/
theorem stop_session_safe_and_idempotent :
    (∀ (reg : List (String × StopView)) (sid : String) (now : Nat)
        (close_raises : Bool), find_session reg sid = none →
        stop_session reg sid now close_raises = (reg, none)) ∧
    (∀ (reg : List (String × StopView)) (sid : String) (now : Nat)
        (close_raises : Bool) (v : StopView), find_session reg sid = some v →
        (stop_session reg sid now close_raises).2 = some ⟨"stopped", some now⟩ ∧
        find_session (stop_session reg sid now close_raises).1 sid =
          some ⟨"stopped", some now⟩) ∧
    (∀ (reg : List (String × StopView)) (sid : String) (now : Nat),
        stop_session reg sid now true = stop_session reg sid now false) ∧
    (∀ (reg : List (String × StopView)) (sid : String) (now now2 : Nat)
        (cr cr2 : Bool) (v : StopView), find_session reg sid = some v →
        (stop_session (stop_session reg sid now cr).1 sid now2 cr2).2 =
          some ⟨"stopped", some now2⟩) := by
  have h2 : ∀ (reg : List (String × StopView)) (sid : String) (now : Nat)
      (close_raises : Bool) (v : StopView), find_session reg sid = some v →
      (stop_session reg sid now close_raises).2 = some ⟨"stopped", some now⟩ ∧
      find_session (stop_session reg sid now close_raises).1 sid =
        some ⟨"stopped", some now⟩ := by
    intro reg sid now close_raises v h
    constructor
    · simp [stop_session, h]
    · simp only [stop_session, h]
      exact find_update_session reg sid v _ h
  refine ⟨?_, h2, ?_, ?_⟩
  · intro reg sid now close_raises h
    simp [stop_session, h]
  · intro reg sid now
    simp [stop_session, close_browser]
  · intro reg sid now now2 cr cr2 v h
    have hfirst := (h2 reg sid now cr v h).2
    exact (h2 _ sid now2 cr2 _ hfirst).1

/-- C7 witness: concrete runs — unknown id yields `None` and an unchanged
registry; a first stop (with the browser close raising) and a second stop
both return the terminally stopped session. -/
theorem stop_session_safe_witness :
    stop_session [] "s1" 5 false = ([], none) ∧
    (stop_session [("s1", ⟨"recording", none⟩)] "s1" 5 true).2 =
      some ⟨"stopped", some 5⟩ ∧
    (stop_session (stop_session [("s1", ⟨"recording", none⟩)] "s1" 5 true).1
        "s1" 9 true).2 = some ⟨"stopped", some 9⟩ :=
  ⟨stop_session_safe_and_idempotent.1 [] "s1" 5 false rfl,
   (stop_session_safe_and_idempotent.2.1 [("s1", ⟨"recording", none⟩)] "s1" 5 true
      ⟨"recording", none⟩ rfl).1,
   stop_session_safe_and_idempotent.2.2.2 [("s1", ⟨"recording", none⟩)] "s1" 5 9
      true true ⟨"recording", none⟩ rfl⟩

theorem takeWhile_all_false {α : Type} (p : α → Bool) (l : List α)
    (h : ∀ x, p x = false) : l.takeWhile p = [] := by
  cases l with
  | nil => rfl
  | cons a t => simp [List.takeWhile, h a]

theorem mem_takeWhile_pred {α : Type} (p : α → Bool) :
    ∀ (l : List α) (a : α), a ∈ l.takeWhile p → p a = true := by
  intro l
  induction l with
  | nil => intro a h; simp [List.takeWhile] at h
  | cons b t ih =>
    intro a h
    rw [List.takeWhile_cons] at h
    by_cases hb : p b = true
    · rw [if_pos hb] at h
      rcases List.mem_cons.mp h with heq | h2
      · rw [heq]; exact hb
      · exact ih a h2
    · rw [if_neg hb] at h
      simp at h

/-- C8: every producer loop re-checks the session status at the top of each
iteration, so a loop whose session is stopped before it starts never appends;
in general every append belongs to an iteration whose loop-top check (at time
`k*P`) still observed `"recording"`, and since the append lands less than one
polling interval after its check, every append time is strictly below
`stopTime + P` — all loops stop appending within one polling interval of the
status change. -/
theorem loops_stop_within_one_interval :
    (∀ (P : Nat) (delay : Nat → Nat) (n : Nat),
        loop_append_times 0 P delay n = []) ∧
    (∀ (stopTime P n : Nat) (delay : Nat → Nat) (t : Nat),
        (∀ k, delay k < P) → t ∈ loop_append_times stopTime P delay n →
        (∃ k, status_at stopTime (k * P) = "recording" ∧ t = k * P + delay k) ∧
        t < stopTime + P) := by
  constructor
  · intro P delay n
    unfold loop_append_times
    rw [takeWhile_all_false]
    · rfl
    · intro k
      simp [status_at]
  · intro stopTime P n delay t hdelay ht
    unfold loop_append_times at ht
    obtain ⟨k, hk, hkt⟩ := List.mem_map.mp ht
    have hcheck' := mem_takeWhile_pred
      (fun k => decide (status_at stopTime (k * P) = "recording")) (List.range n) k hk
    have hcheck : status_at stopTime (k * P) = "recording" := by
      simpa using hcheck'
    have hlt : k * P < stopTime := by
      by_contra hge
      simp [status_at, hge] at hcheck
    exact ⟨⟨k, hcheck, hkt.symm⟩, by have := hdelay k; omega⟩

/-- C8 witness: with stop at time 3 and a 2-tick polling interval, the loop
appends at times 1 and 3 only — the append at time 3 is the one in-flight
iteration, still within one polling interval of the stop. -/
theorem loops_stop_witness :
    3 ∈ loop_append_times 3 2 (fun _ => 1) 5 ∧ 3 < 3 + 2 :=
  ⟨by decide,
   (loops_stop_within_one_interval.2 3 2 5 (fun _ => 1) 3
      (fun k => by simp) (by decide)).2⟩

/-- C9: a subscriber with fresh cursors `(0, 0)` connecting while the session
holds 5 actions and 2 screenshots receives exactly the 5 action messages in
log order plus the latest screenshot once (then the heartbeat), with cursors
advanced to `(5, 2)`; a tick observing unchanged buffer lengths emits only the
heartbeat and no duplicate action or screenshot message; and in general a tick
with new actions emits exactly the strictly new suffix, in order, advancing
the action cursor to the log length. -/
theorem fanout_delivers_backlog_then_only_new :
    (ws_tick ["a1", "a2", "a3", "a4", "a5"] ["s1", "s2"] "u" ⟨0, 0⟩ =
      ([WsMsg.action "a1", WsMsg.action "a2", WsMsg.action "a3", WsMsg.action "a4",
        WsMsg.action "a5", WsMsg.screenshot "s2", WsMsg.status 5 "u"], ⟨5, 2⟩)) ∧
    (∀ (acts ss : List String) (url : String) (c : Cursors),
        acts.length = c.last_action_count → ss.length = c.last_screenshot_count →
        ws_tick acts ss url c = ([WsMsg.status acts.length url], c)) ∧
    (∀ (acts ss : List String) (url : String) (c : Cursors),
        c.last_action_count < acts.length →
        (ws_tick acts ss url c).1.take (acts.length - c.last_action_count) =
          (acts.drop c.last_action_count).map WsMsg.action ∧
        (ws_tick acts ss url c).2.last_action_count = acts.length) := by
  refine ⟨rfl, ?_, ?_⟩
  · intro acts ss url c ha hs
    have hna : ¬(acts.length > c.last_action_count) := by omega
    have hns : ¬(ss.length > c.last_screenshot_count) := by omega
    simp [ws_tick, hna, hns]
  · intro acts ss url c hlt
    have hgt : acts.length > c.last_action_count := hlt
    constructor
    · have hlen : ((acts.drop c.last_action_count).map WsMsg.action).length =
          acts.length - c.last_action_count := by
        simp
      simp only [ws_tick, hgt, if_pos, List.append_assoc]
      rw [← hlen, List.take_left]
    · simp [ws_tick, hgt]

/-- C9 witness: a tick on unchanged buffers of lengths `(1, 1)` emits only the
heartbeat, and a tick with one new action past cursor 1 emits exactly that
action first. -/
theorem fanout_witness :
    ws_tick ["a1"] ["s1"] "u" ⟨1, 1⟩ = ([WsMsg.status 1 "u"], ⟨1, 1⟩) ∧
    (ws_tick ["a1", "a2"] ["s1"] "u" ⟨1, 1⟩).1.take 1 = [WsMsg.action "a2"] :=
  ⟨fanout_delivers_backlog_then_only_new.2.1 ["a1"] ["s1"] "u" ⟨1, 1⟩ rfl rfl,
   (fanout_delivers_backlog_then_only_new.2.2 ["a1", "a2"] ["s1"] "u" ⟨1, 1⟩
      (by decide)).1⟩

theorem find_map_set_same (k : String) (v : JVal) :
    ∀ (d : List (String × JVal)), d.any (fun p => p.1 = k) = true →
      (d.map (fun p => if p.1 = k then (k, v) else p)).find?
        (fun p => p.1 = k) = some (k, v) := by
  intro d
  induction d with
  | nil => intro h; simp at h
  | cons a t ih =>
    intro h
    by_cases ha : a.1 = k
    · simp [List.find?, ha]
    · simp only [List.any_cons] at h
      have ht : t.any (fun p => p.1 = k) = true := by
        simpa [ha] using h
      simpa [List.find?, ha] using ih ht

theorem find_append_single (k : String) (v : JVal) :
    ∀ (d : List (String × JVal)), d.any (fun p => p.1 = k) = false →
      (d ++ [(k, v)]).find? (fun p => p.1 = k) = some (k, v) := by
  intro d
  induction d with
  | nil => intro _; simp [List.find?]
  | cons a t ih =>
    intro h
    simp only [List.any_cons, Bool.or_eq_false_iff] at h
    have ha : ¬(a.1 = k) := by simpa using h.1
    simpa [List.find?, ha] using ih h.2

theorem find_map_set_other (k k2 : String) (v : JVal) (hne : k ≠ k2) :
    ∀ (d : List (String × JVal)),
      (d.map (fun p => if p.1 = k2 then (k2, v) else p)).find?
        (fun p => p.1 = k) = d.find? (fun p => p.1 = k) := by
  intro d
  induction d with
  | nil => rfl
  | cons a t ih =>
    by_cases ha2 : a.1 = k2
    · have hak : ¬(a.1 = k) := fun h => hne (h.symm.trans ha2)
      have hk2k : ¬(k2 = k) := fun h => hne h.symm
      simpa [List.find?, ha2, hak, hk2k] using ih
    · by_cases hak : a.1 = k
      · simp [List.find?, ha2, hak, hne]
      · simpa [List.find?, ha2, hak] using ih

theorem find_append_single_other (k k2 : String) (v : JVal) (hne : k ≠ k2) :
    ∀ (d : List (String × JVal)),
      (d ++ [(k2, v)]).find? (fun p => p.1 = k) = d.find? (fun p => p.1 = k) := by
  intro d
  induction d with
  | nil =>
    have : ¬(k2 = k) := fun h => hne h.symm
    simp [List.find?, this]
  | cons a t ih =>
    by_cases hak : a.1 = k
    · simp [List.find?, hak]
    · simpa [List.find?, hak] using ih

theorem jget_dict_set_same (d : List (String × JVal)) (k : String) (v : JVal) :
    jget (dict_set d k v) k = some v := by
  by_cases hany : d.any (fun p => p.1 = k) = true
  · simp only [dict_set, hany, if_pos, jget, find_map_set_same k v d hany]
  · have hf : d.any (fun p => p.1 = k) = false := Bool.eq_false_iff.mpr hany
    simp only [dict_set, hf, Bool.false_eq_true, if_false, jget,
      find_append_single k v d hf]

theorem attempt_extract_err (e : String) :
    attempt_extract (Except.error e) = Except.error e := rfl

theorem attempt_extract_ok_eq (text : String) :
    attempt_extract (Except.ok text) = ext_step (ad_extract_json text) := rfl

theorem attempt_extract_ok_none (text : String)
    (h : ad_extract_json text = none) :
    attempt_extract (Except.ok text) = Except.error "JSONDecodeError" := by
  rw [attempt_extract_ok_eq, h]
  rfl

theorem attempt_extract_ok_some (text : String) (v : JVal)
    (h : ad_extract_json text = some v) :
    attempt_extract (Except.ok text) =
      (match v with
       | JVal.jobj fields => Except.ok fields
       | _ => Except.error "TypeError: not a dict") := by
  conv_lhs => rw [attempt_extract_ok_eq, h]
  cases v <;> rfl

theorem jget_dict_set_other (d : List (String × JVal)) (k k2 : String) (v : JVal)
    (hne : k ≠ k2) : jget (dict_set d k2 v) k = jget d k := by
  by_cases hany : d.any (fun p => p.1 = k2) = true
  · simp only [dict_set, hany, if_pos, jget, find_map_set_other k k2 v hne d]
  · have hf : d.any (fun p => p.1 = k2) = false := Bool.eq_false_iff.mpr hany
    simp only [dict_set, hf, Bool.false_eq_true, if_false, jget,
      find_append_single_other k k2 v hne d]

/-- C5 counterexample: the claim's contract does not hold of
`SimulatorAgent._extract_json_array` (one of the two extraction helpers it
covers): that helper strips fences but performs no control-character handling,
so on `{"a":1}` carrying a stray `\x07` byte it raises a `JSONDecodeError`
(`none`) instead of yielding the parsed object — only the observer's
`_extract_json` strips control characters and parses it. -/
theorem extract_json_array_ctrl_char_raises :
    extract_json_array "\x7b\"a\":1\x07\x7d" = none ∧
    extract_json "\x7b\"a\":1\x07\x7d" = some (JVal.jobj [("a", JVal.jnum "1")]) :=
  ⟨rfl, rfl⟩

/-- C5 amended: the observer's `_extract_json` strips a single
leading/trailing fence (with or without a language tag), replaces control
characters outside `\n\r\t` by spaces, then parses, raising on failure — it
yields `{"a": 1}` on all three claimed inputs; the simulator's
`_extract_json_array` (and the action detector's `_extract_json`) strip only
the fences, so they yield the parsed value on the fenced and raw inputs but
raise a decode error on the input containing the stray `\x07` byte; all of
them raise on parse failure rather than returning a partial object. -/
theorem extract_json_contract :
    extract_json "```json\n\x7b\"a\":1\x7d\n```" =
      some (JVal.jobj [("a", JVal.jnum "1")]) ∧
    extract_json "\x7b\"a\":1\x7d" = some (JVal.jobj [("a", JVal.jnum "1")]) ∧
    extract_json "\x7b\"a\":1\x07\x7d" = some (JVal.jobj [("a", JVal.jnum "1")]) ∧
    extract_json_array "```json\n\x7b\"a\":1\x7d\n```" =
      some [JVal.jobj [("a", JVal.jnum "1")]] ∧
    extract_json_array "\x7b\"a\":1\x7d" = some [JVal.jobj [("a", JVal.jnum "1")]] ∧
    extract_json_array "\x7b\"a\":1\x07\x7d" = none ∧
    ad_extract_json "\x7b\"a\":1\x7d" = some (JVal.jobj [("a", JVal.jnum "1")]) ∧
    ad_extract_json "\x7b\"a\":1\x07\x7d" = none :=
  ⟨rfl, rfl, rfl, rfl, rfl, rfl, rfl, rfl⟩

/-- C10 counterexample: `analyze_frame` is not total — `_summarize_events`
runs before the `try` block, so an event dict with no `"type"` key makes the
`clicks` comprehension raise `KeyError`, which propagates to the caller even
though the model call itself would have succeeded. -/
theorem analyze_frame_malformed_event_raises :
    analyze_frame 0 (Except.ok "\x7b\x7d") [[("x", "1")]] "" =
      Except.error "KeyError: type" :=
  rfl

/-- C10 amended: for inputs whose events summarize without error, a model-call
failure or a JSON-extraction failure is caught and the fallback action dict is
returned — `action_type` is `"unknown"`, the error message appears in both the
`description` (as `Detection failed: ...`) and `error` fields, and a current
timestamp is present — and every successfully returned dict carries the
current timestamp; but the function is not total: the event summary runs
outside the `try/except`, so a malformed event dict (missing `type`, or a
click missing `x`/`y`) raises `KeyError` to the caller. -/
theorem analyze_frame_fallback_and_timestamp :
    (∀ (now : Nat) (e : String) (events : List PyDict) (ctx s : String),
        summarize_events events = Except.ok s →
        analyze_frame now (Except.error e) events ctx =
          Except.ok (fallback_action e now)) ∧
    (∀ (now : Nat) (text : String) (events : List PyDict) (ctx s : String),
        summarize_events events = Except.ok s →
        ad_extract_json text = none →
        analyze_frame now (Except.ok text) events ctx =
          Except.ok (fallback_action "JSONDecodeError" now)) ∧
    (∀ (e : String) (now : Nat),
        jget (fallback_action e now) "action_type" = some (JVal.jstr "unknown") ∧
        jget (fallback_action e now) "description" =
          some (JVal.jstr ("Detection failed: " ++ e)) ∧
        jget (fallback_action e now) "error" = some (JVal.jstr e) ∧
        jget (fallback_action e now) "timestamp" =
          some (JVal.jnum (toString now))) ∧
    (∀ (now : Nat) (oracle : Except String String) (events : List PyDict)
        (ctx : String) (d : List (String × JVal)),
        analyze_frame now oracle events ctx = Except.ok d →
        jget d "timestamp" = some (JVal.jnum (toString now))) := by
  have jget_fb : ∀ (e : String) (now : Nat),
      jget (fallback_action e now) "timestamp" = some (JVal.jnum (toString now)) :=
    fun _ _ => rfl
  refine ⟨?_, ?_, fun e now => ⟨rfl, rfl, rfl, rfl⟩, ?_⟩
  · intro now e events ctx s hsum
    unfold analyze_frame
    rw [hsum, attempt_extract_err e]
  · intro now text events ctx s hsum hext
    unfold analyze_frame
    rw [hsum, attempt_extract_ok_none text hext]
  · intro now oracle events ctx d hd
    unfold analyze_frame at hd
    cases hsum : summarize_events events with
    | error e =>
      rw [hsum] at hd
      exact absurd hd (by simp)
    | ok s =>
      rw [hsum] at hd
      cases oracle with
      | error e =>
        rw [attempt_extract_err e] at hd
        simp only [Except.ok.injEq] at hd
        rw [← hd]
        exact jget_fb e now
      | ok text =>
        cases hext : ad_extract_json text with
        | none =>
          rw [attempt_extract_ok_none text hext] at hd
          simp only [Except.ok.injEq] at hd
          rw [← hd]
          exact jget_fb _ now
        | some v =>
          rw [attempt_extract_ok_some text v hext] at hd
          cases v with
          | jobj fields =>
            simp only [Except.ok.injEq] at hd
            rw [← hd]
            rw [jget_dict_set_other _ "timestamp" "event_count" _ (by decide),
              jget_dict_set_same]
          | jnull =>
            simp only [Except.ok.injEq] at hd
            rw [← hd]
            exact jget_fb _ now
          | jbool b =>
            simp only [Except.ok.injEq] at hd
            rw [← hd]
            exact jget_fb _ now
          | jnum n =>
            simp only [Except.ok.injEq] at hd
            rw [← hd]
            exact jget_fb _ now
          | jstr s2 =>
            simp only [Except.ok.injEq] at hd
            rw [← hd]
            exact jget_fb _ now
          | jarr elems =>
            simp only [Except.ok.injEq] at hd
            rw [← hd]
            exact jget_fb _ now

/-- C10 witness: with one well-formed keystroke event, a failing model call
returns the fallback dict rather than raising. -/
theorem analyze_frame_fallback_witness :
    analyze_frame 7 (Except.error "boom") [[("type", "keystroke"), ("key", "a")]]
      "" = Except.ok (fallback_action "boom" 7) :=
  analyze_frame_fallback_and_timestamp.1 7 "boom"
    [[("type", "keystroke"), ("key", "a")]] "" "- Typed: \"a\"" rfl

end Parrot
